import Mathlib

/-!
Verification of the `FileMap` memory-mapped-file abstraction
(`src/aapt2/src/main/jni/libutils/jni/FileMap.cpp`), shallowly embedded in
Lean 4.  The embedding follows the POSIX (non-MINGW) build of the file: the
MINGW-only members `mFileHandle`/`mFileMapping` and the MINGW code paths are
absent from the struct, exactly as they are absent from the compiled POSIX
object.  Pointers are modelled as `Option Nat` (an address, `none` = NULL),
the owned `char*` name as `Option String`, `size_t` as `Nat`, `off64_t` and
`long` as `Int`.  The OS calls `sysconf`, `mmap`, `munmap` and `madvise` are
external capabilities, passed in as parameters; side effects (the calls a
function makes) are returned explicitly.
-/

namespace FileMapModel

/-- The data members of `class FileMap` used by the POSIX build:
`char* mFileName`, `void* mBasePtr`, `size_t mBaseLength`,
`off64_t mDataOffset`, `void* mDataPtr`, `size_t mDataLength`. -/
structure FileMap where
  mFileName   : Option String
  mBasePtr    : Option Nat
  mBaseLength : Nat
  mDataOffset : Int
  mDataPtr    : Option Nat
  mDataLength : Nat
  deriving Repr, DecidableEq

/-- The default constructor `FileMap::FileMap(void)` initialises
`mFileName`, `mBasePtr`, `mBaseLength`, `mDataPtr`, `mDataLength` but NOT
`mDataOffset`; the indeterminate value it holds is the parameter. -/
def FileMap.mkEmpty (uninitDataOffset : Int) : FileMap :=
  { mFileName := none
    mBasePtr := none
    mBaseLength := 0
    mDataOffset := uninitDataOffset
    mDataPtr := none
    mDataLength := 0 }

/-- `size_t` arithmetic wraps modulo `2 ^ 64` (LP64). -/
def SIZE_T_MOD : Nat := 2 ^ 64

/-- `PROT_READ` (Linux). -/
def PROT_READ : Nat := 1
/-- `PROT_WRITE` (Linux). -/
def PROT_WRITE : Nat := 2
/-- `MAP_SHARED` (Linux). -/
def MAP_SHARED : Nat := 1

/-- The OS capabilities `FileMap::create` consults:
`sysconfPageSize` is the result of `sysconf(_SC_PAGESIZE)` (`-1` on failure);
`mmap length prot flags fd offset` is the result of
`mmap(NULL, length, prot, flags, fd, offset)`, with `none` = `MAP_FAILED`. -/
structure CreateEnv where
  sysconfPageSize : Int
  mmap : Nat → Nat → Nat → Int → Int → Option Nat

/-- Outcome of one call to `FileMap::create`, without the reference to the
instance: `assertFail` models a failed `assert` (process abort), `fail q`
models `return false` with the static `mPageSize` cache now holding `q`, and
`ok q st` models `return true` with cache `q` and the instance fields set
to `st`. -/
inductive CreateStatus where
  | assertFail : CreateStatus
  | fail (mPageSize : Int) : CreateStatus
  | ok (mPageSize : Int) (fm : FileMap) : CreateStatus
  deriving Repr, DecidableEq

/-- Outcome of `FileMap::create` on a given instance. -/
inductive CreateOutcome where
  | assertFail : CreateOutcome
  | fail (mPageSize : Int) (fm : FileMap) : CreateOutcome
  | ok (mPageSize : Int) (fm : FileMap) : CreateOutcome
  deriving Repr, DecidableEq

/-- `if (mPageSize == -1) mPageSize = sysconf(_SC_PAGESIZE);` — the value the
static cache holds after the lazy-initialisation step of `create`. -/
def resolvePageSize (env : CreateEnv) (mPageSize : Int) : Int :=
  if mPageSize = -1 then env.sysconfPageSize else mPageSize

/-- The body of `FileMap::create` (POSIX path, lines 166-214).  The POSIX
path reads no data member of the instance (only the static `mPageSize`,
passed here as an argument), so this status function takes no `FileMap`:
first the three `assert`s, then lazy page-size discovery (failure returns
false with the cache still `-1`), then `adjust = offset % mPageSize`,
`adjOffset = offset - adjust`, `adjLength = length + adjust` — a `size_t`
addition, wrapping modulo `2 ^ 64` — then `prot = PROT_READ` (plus
`PROT_WRITE` unless read-only), `flags = MAP_SHARED`, the `mmap` call
(failure returns false), the field assignments, and
`assert(mBasePtr != NULL)` (address 0 is NULL). -/
def createStatus (env : CreateEnv) (mPageSize : Int) (origFileName : Option String)
    (fd offset : Int) (length : Nat) (readOnly : Bool) : CreateStatus :=
  if ¬ 0 ≤ fd then .assertFail
  else if ¬ 0 ≤ offset then .assertFail
  else if ¬ 0 < length then .assertFail
  else
    let pageSize := resolvePageSize env mPageSize
    if pageSize = -1 then .fail pageSize
    else
      let adjust : Int := Int.tmod offset pageSize
      let adjOffset : Int := offset - adjust
      let adjLength : Nat := (length + adjust.toNat) % SIZE_T_MOD
      let prot : Nat := if readOnly then PROT_READ else PROT_READ ||| PROT_WRITE
      match env.mmap adjLength prot MAP_SHARED fd adjOffset with
      | none => .fail pageSize
      | some ptr =>
          if ptr = 0 then .assertFail
          else
            .ok pageSize
              { mFileName := origFileName
                mBasePtr := some ptr
                mBaseLength := adjLength
                mDataOffset := offset
                mDataPtr := some (ptr + adjust.toNat)
                mDataLength := length }

/-- `bool FileMap::create(const char* origFileName, int fd, off64_t offset,
size_t length, bool readOnly)` acting on instance `fm` with the static
cache at `mPageSize`: on `return false` the instance fields are untouched
(the failing paths assign no member), on `return true` they are the freshly
assigned ones. -/
def FileMap.create (env : CreateEnv) (mPageSize : Int) (fm : FileMap)
    (origFileName : Option String) (fd offset : Int) (length : Nat)
    (readOnly : Bool) : CreateOutcome :=
  match createStatus env mPageSize origFileName fd offset length readOnly with
  | .assertFail => .assertFail
  | .fail q => .fail q fm
  | .ok q st => .ok q st

/-- Move constructor `FileMap::FileMap(FileMap&&)`: the result is
(the new object, the source after the move).  All six members are copied
into the new object; then the fields `mFileName`, `mBasePtr`, `mDataPtr` of
the source are set to NULL (its `mBaseLength`, `mDataOffset`, `mDataLength`
are not touched). -/
def FileMap.moveConstruct (other : FileMap) : FileMap × FileMap :=
  ({ mFileName := other.mFileName
     mBasePtr := other.mBasePtr
     mBaseLength := other.mBaseLength
     mDataOffset := other.mDataOffset
     mDataPtr := other.mDataPtr
     mDataLength := other.mDataLength },
   { other with mFileName := none, mBasePtr := none, mDataPtr := none })

/-- Move assignment `FileMap& FileMap::operator=(FileMap&&)`: the result is
(the destination after assignment, the source after the move).  The body is
six field assignments from `other` followed by nulling the fields
`mFileName`, `mBasePtr`, `mDataPtr` of the source; the previous field values
of the destination are simply overwritten. -/
def FileMap.moveAssign (dest other : FileMap) : FileMap × FileMap :=
  ({ mFileName := other.mFileName
     mBasePtr := other.mBasePtr
     mBaseLength := other.mBaseLength
     mDataOffset := other.mDataOffset
     mDataPtr := other.mDataPtr
     mDataLength := other.mDataLength },
   { other with mFileName := none, mBasePtr := none, mDataPtr := none })

/-- A release call made by the destructor: `free(mFileName)` or
`munmap(mBasePtr, mBaseLength)`. -/
inductive ReleaseAction where
  | freeName (name : String) : ReleaseAction
  | munmapRegion (base len : Nat) : ReleaseAction
  deriving Repr, DecidableEq

/-- The release calls performed by the body of `FileMap::operator=(FileMap&&)`:
the body (lines 79-96) consists only of field assignments — it contains no
`munmap` and no `free` — so this list is empty whatever the destination held. -/
def FileMap.moveAssignReleaseCalls (dest other : FileMap) : List ReleaseAction :=
  []

/-- Destructor `FileMap::~FileMap()` (POSIX path): returns (the release calls
made, the diagnostics emitted).  `free(mFileName)` iff `mFileName != NULL`;
`munmap(mBasePtr, mBaseLength)` iff `mBasePtr` is non-NULL.  `munmapResult`
gives the result of that `munmap` call; a non-zero result guards only the
`LOGD` line, which is commented out in the source, so the diagnostics list
is empty on every path. -/
def FileMap.destroy (munmapResult : Nat → Nat → Int) (fm : FileMap) :
    List ReleaseAction × List String :=
  let freeCalls : List ReleaseAction :=
    match fm.mFileName with
    | some s => [ReleaseAction.freeName s]
    | none => []
  match fm.mBasePtr with
  | some base =>
      (freeCalls ++ [ReleaseAction.munmapRegion base fm.mBaseLength], [])
  | none => (freeCalls, [])

/-- `enum MapAdvice { NORMAL, RANDOM, SEQUENTIAL, WILLNEED, DONTNEED }`. -/
inductive MapAdvice where
  | NORMAL : MapAdvice
  | RANDOM : MapAdvice
  | SEQUENTIAL : MapAdvice
  | WILLNEED : MapAdvice
  | DONTNEED : MapAdvice
  deriving Repr, DecidableEq

/-- `MADV_NORMAL` (Linux). -/
def MADV_NORMAL : Nat := 0
/-- `MADV_RANDOM` (Linux). -/
def MADV_RANDOM : Nat := 1
/-- `MADV_SEQUENTIAL` (Linux). -/
def MADV_SEQUENTIAL : Nat := 2
/-- `MADV_WILLNEED` (Linux). -/
def MADV_WILLNEED : Nat := 3
/-- `MADV_DONTNEED` (Linux). -/
def MADV_DONTNEED : Nat := 4

/-- The `switch (advice)` of `FileMap::advise`: the `sysAdvice` value chosen
for each hint (the `default: assert(false)` arm is unreachable, the enum
being closed). -/
def sysAdviceOf : MapAdvice → Nat
  | .NORMAL => MADV_NORMAL
  | .RANDOM => MADV_RANDOM
  | .SEQUENTIAL => MADV_SEQUENTIAL
  | .WILLNEED => MADV_WILLNEED
  | .DONTNEED => MADV_DONTNEED

/-- `int FileMap::advise(MapAdvice)` in the non-`_WIN32` build:
`madvise(mBasePtr, mBaseLength, sysAdvice)` and return its result `cc`
(a failure is logged but still just returned).  `madviseResult base len adv`
is the external `madvise` call.  The second component of the pair is the instance
after the call: the body only reads members, so it is returned unchanged. -/
def FileMap.advise (madviseResult : Option Nat → Nat → Nat → Int)
    (fm : FileMap) (advice : MapAdvice) : Int × FileMap :=
  (madviseResult fm.mBasePtr fm.mBaseLength (sysAdviceOf advice), fm)

/-- `int FileMap::advise(MapAdvice)` in the `_WIN32` build: `return -1;`
with no other effect. -/
def FileMap.adviseWin32 (fm : FileMap) (advice : MapAdvice) : Int × FileMap :=
  (-1, fm)

/-! Concrete fixtures used by witnesses and counterexamples. -/

/-- An environment whose page-size query answers 4096 and whose `mmap`
always succeeds at address 8192. -/
def env0 : CreateEnv :=
  { sysconfPageSize := 4096, mmap := fun _ _ _ _ _ => some 8192 }

/-- An environment whose `sysconf(_SC_PAGESIZE)` fails. -/
def envNoPage : CreateEnv :=
  { sysconfPageSize := -1, mmap := fun _ _ _ _ _ => some 8192 }

/-- An environment whose `mmap` always fails. -/
def envNoMap : CreateEnv :=
  { sysconfPageSize := 4096, mmap := fun _ _ _ _ _ => none }

/-- A FileMap in the mapped state: name owned, base at 4096, one page. -/
def fmSample : FileMap :=
  { mFileName := some "a"
    mBasePtr := some 4096
    mBaseLength := 4096
    mDataOffset := 0
    mDataPtr := some 4096
    mDataLength := 100 }

/-- A destination instance holding a live mapping at base 8192. -/
def c1Dest : FileMap :=
  { mFileName := some "dest.txt"
    mBasePtr := some 8192
    mBaseLength := 4096
    mDataOffset := 0
    mDataPtr := some 8192
    mDataLength := 100 }

/-- An instance holding a live mapping at base 4096, target of a second
`create` call. -/
def c2Mapped : FileMap :=
  { mFileName := some "old"
    mBasePtr := some 4096
    mBaseLength := 4096
    mDataOffset := 0
    mDataPtr := some 4096
    mDataLength := 100 }

/-- The instance state produced by a successful
`create(origFileName, fd, 4100, 50, readOnly)` with page size 4096 and
`mmap` returning 8192. -/
def stC3 : FileMap :=
  { mFileName := some "f"
    mBasePtr := some 8192
    mBaseLength := 54
    mDataOffset := 4100
    mDataPtr := some 8196
    mDataLength := 50 }

/-- The instance state produced by a successful
`create(NULL, fd, 4100, 2^64 - 2, readOnly)` with page size 4096 and `mmap`
returning 8192: the `size_t` sum `length + adjust` wraps to 2. -/
def c3WrapState : FileMap :=
  { mFileName := none
    mBasePtr := some 8192
    mBaseLength := 2
    mDataOffset := 4100
    mDataPtr := some 8196
    mDataLength := 2 ^ 64 - 2 }

/-! Theorems settling the claims. -/

/-- C10: after move-construction or move-assignment, only `mFileName`,
`mBasePtr` and `mDataPtr` of the source are reset to null; its
`mBaseLength`, `mDataOffset` and `mDataLength` are left unchanged and
retain the values held before the move. -/
theorem c10_move_resets_only_pointers (dest fm : FileMap) :
    ((FileMap.moveConstruct fm).2.mFileName = none ∧
     (FileMap.moveConstruct fm).2.mBasePtr = none ∧
     (FileMap.moveConstruct fm).2.mDataPtr = none ∧
     (FileMap.moveConstruct fm).2.mBaseLength = fm.mBaseLength ∧
     (FileMap.moveConstruct fm).2.mDataOffset = fm.mDataOffset ∧
     (FileMap.moveConstruct fm).2.mDataLength = fm.mDataLength) ∧
    ((FileMap.moveAssign dest fm).2.mFileName = none ∧
     (FileMap.moveAssign dest fm).2.mBasePtr = none ∧
     (FileMap.moveAssign dest fm).2.mDataPtr = none ∧
     (FileMap.moveAssign dest fm).2.mBaseLength = fm.mBaseLength ∧
     (FileMap.moveAssign dest fm).2.mDataOffset = fm.mDataOffset ∧
     (FileMap.moveAssign dest fm).2.mDataLength = fm.mDataLength) :=
  ⟨⟨rfl, rfl, rfl, rfl, rfl, rfl⟩, ⟨rfl, rfl, rfl, rfl, rfl, rfl⟩⟩

/-- C4: for a FileMap in the mapped state, after move-construction from it
or move-assignment out of it the source destructs with no release action
(its `mBasePtr` and `mFileName` are null), and the destination holds the
`mDataPtr` and `mDataLength` the source held before the move. -/
theorem c4_moved_from_source_destructs_noop (dest fm : FileMap)
    (munmapResult : Nat → Nat → Int) (h : fm.mBasePtr.isSome = true) :
    FileMap.destroy munmapResult (FileMap.moveConstruct fm).2 = ([], []) ∧
    (FileMap.moveConstruct fm).2.mBasePtr = none ∧
    (FileMap.moveConstruct fm).2.mFileName = none ∧
    (FileMap.moveConstruct fm).1.mDataPtr = fm.mDataPtr ∧
    (FileMap.moveConstruct fm).1.mDataLength = fm.mDataLength ∧
    FileMap.destroy munmapResult (FileMap.moveAssign dest fm).2 = ([], []) ∧
    (FileMap.moveAssign dest fm).2.mBasePtr = none ∧
    (FileMap.moveAssign dest fm).2.mFileName = none ∧
    (FileMap.moveAssign dest fm).1.mDataPtr = fm.mDataPtr ∧
    (FileMap.moveAssign dest fm).1.mDataLength = fm.mDataLength :=
  ⟨rfl, rfl, rfl, rfl, rfl, rfl, rfl, rfl, rfl, rfl⟩

/-- Witness for C4 at a concrete mapped instance. -/
theorem c4_witness :
    fmSample.mBasePtr.isSome = true ∧
    FileMap.destroy (fun _ _ => 0) (FileMap.moveConstruct fmSample).2 = ([], []) :=
  ⟨by decide,
   (c4_moved_from_source_destructs_noop (FileMap.mkEmpty 0) fmSample
     (fun _ _ => 0) (by decide)).1⟩

/-- C9: destroying an empty FileMap (default-constructed, whatever
indeterminate `mDataOffset` it holds) performs no release call and emits no
diagnostic; destroying a mapped FileMap calls `free` on the owned name and
`munmap` on the physical base and length. -/
theorem c9_destroy_empty_noop_mapped_releases (munmapResult : Nat → Nat → Int)
    (d : Int) (fm : FileMap) (b : Nat) (s : String)
    (hb : fm.mBasePtr = some b) (hs : fm.mFileName = some s) :
    FileMap.destroy munmapResult (FileMap.mkEmpty d) = ([], []) ∧
    FileMap.destroy munmapResult fm =
      ([ReleaseAction.freeName s, ReleaseAction.munmapRegion b fm.mBaseLength],
       []) := by
  refine ⟨rfl, ?_⟩
  simp [FileMap.destroy, hb, hs]

/-- Witness for C9 at a concrete mapped instance. -/
theorem c9_witness :
    FileMap.destroy (fun _ _ => 0) fmSample =
      ([ReleaseAction.freeName "a", ReleaseAction.munmapRegion 4096 4096],
       []) :=
  (c9_destroy_empty_noop_mapped_releases (fun _ _ => 0) 0 fmSample 4096 "a"
    rfl rfl).2

/-- C1: the claim fails on the code.  Move-assignment onto a destination
holding a live mapping (base 8192, owned name) performs no release call at
all (the operator body is only field assignments), and after the assignment
neither the destination nor the source refers to the prior base pointer or
name: the prior mapping and the owned name string are leaked, not released. -/
theorem c1_moveAssign_leaks_dest_mapping :
    c1Dest.mBasePtr = some 8192 ∧
    c1Dest.mFileName = some "dest.txt" ∧
    FileMap.moveAssignReleaseCalls c1Dest (FileMap.mkEmpty 0) = [] ∧
    (FileMap.moveAssign c1Dest (FileMap.mkEmpty 0)).1.mBasePtr = none ∧
    (FileMap.moveAssign c1Dest (FileMap.mkEmpty 0)).1.mFileName = none ∧
    (FileMap.moveAssign c1Dest (FileMap.mkEmpty 0)).2.mBasePtr = none ∧
    (FileMap.moveAssign c1Dest (FileMap.mkEmpty 0)).2.mFileName = none :=
  ⟨rfl, rfl, rfl, rfl, rfl, rfl, rfl⟩

/-- C8: `advise` translates each of the five hints to its `madvise`
constant (injectively), applies the advisory call to the physical
`mBasePtr` and `mBaseLength`, returns exactly the result of that call, and
leaves the instance unchanged; the `_WIN32` build always returns `-1` and
leaves the instance unchanged. -/
theorem c8_advise_one_to_one (madviseResult : Option Nat → Nat → Nat → Int)
    (fm : FileMap) (a b : MapAdvice) (hab : a ≠ b) :
    FileMap.advise madviseResult fm a =
      (madviseResult fm.mBasePtr fm.mBaseLength (sysAdviceOf a), fm) ∧
    sysAdviceOf a ≠ sysAdviceOf b ∧
    sysAdviceOf MapAdvice.NORMAL = MADV_NORMAL ∧
    sysAdviceOf MapAdvice.RANDOM = MADV_RANDOM ∧
    sysAdviceOf MapAdvice.SEQUENTIAL = MADV_SEQUENTIAL ∧
    sysAdviceOf MapAdvice.WILLNEED = MADV_WILLNEED ∧
    sysAdviceOf MapAdvice.DONTNEED = MADV_DONTNEED ∧
    FileMap.adviseWin32 fm a = (-1, fm) := by
  refine ⟨rfl, ?_, rfl, rfl, rfl, rfl, rfl, rfl⟩
  revert hab
  cases a <;> cases b <;> decide

/-- Witness for C8 at a concrete call. -/
theorem c8_witness :
    FileMap.advise (fun _ _ _ => 0) fmSample MapAdvice.NORMAL =
      ((0 : Int), fmSample) ∧
    sysAdviceOf MapAdvice.NORMAL ≠ sysAdviceOf MapAdvice.RANDOM :=
  ⟨(c8_advise_one_to_one (fun _ _ _ => 0) fmSample MapAdvice.NORMAL
      MapAdvice.RANDOM (by decide)).1,
   (c8_advise_one_to_one (fun _ _ _ => 0) fmSample MapAdvice.NORMAL
      MapAdvice.RANDOM (by decide)).2.1⟩

/-- Complete characterisation of a successful `createStatus`: the page-size
cache returned is the resolved page size, and every field of the new state
is the value assigned at lines 203-207 of the source. -/
theorem createStatus_ok (env : CreateEnv) (p : Int) (name : Option String)
    (fd offset : Int) (length : Nat) (ro : Bool) (q : Int) (st : FileMap)
    (h : createStatus env p name fd offset length ro = .ok q st) :
    q = resolvePageSize env p ∧
    st.mFileName = name ∧
    st.mDataOffset = offset ∧
    st.mDataLength = length ∧
    st.mBaseLength = (length + (Int.tmod offset q).toNat) % SIZE_T_MOD ∧
    st.mBasePtr =
      env.mmap st.mBaseLength
        (if ro then PROT_READ else PROT_READ ||| PROT_WRITE) MAP_SHARED fd
        (offset - Int.tmod offset q) ∧
    st.mDataPtr =
      Option.map (fun base => base + (Int.tmod offset q).toNat) st.mBasePtr := by
  dsimp only [createStatus] at h
  split at h
  · exact CreateStatus.noConfusion h
  split at h
  · exact CreateStatus.noConfusion h
  split at h
  · exact CreateStatus.noConfusion h
  split at h
  · exact CreateStatus.noConfusion h
  split at h
  · exact CreateStatus.noConfusion h
  next ptr heq =>
    split at h
    · exact CreateStatus.noConfusion h
    · injection h with h1 h2
      subst h1
      subst h2
      exact ⟨rfl, rfl, rfl, rfl, rfl, heq.symm, rfl⟩

/-- `create` succeeds with a given cache and state exactly when
`createStatus` does: the instance argument only matters on failing paths. -/
theorem create_ok_iff (env : CreateEnv) (p : Int) (fm : FileMap)
    (name : Option String) (fd offset : Int) (length : Nat) (ro : Bool)
    (q : Int) (st : FileMap) :
    FileMap.create env p fm name fd offset length ro =
      CreateOutcome.ok q st ↔
    createStatus env p name fd offset length ro = CreateStatus.ok q st := by
  unfold FileMap.create
  cases hcs : createStatus env p name fd offset length ro <;> simp [hcs]

/-- The outcome of `create` depends on the static cache only through the
resolved page size. -/
theorem createStatus_resolve_congr (env : CreateEnv) (p p2 : Int)
    (hpp : resolvePageSize env p = resolvePageSize env p2)
    (name : Option String) (fd offset : Int) (length : Nat) (ro : Bool) :
    createStatus env p name fd offset length ro =
      createStatus env p2 name fd offset length ro := by
  unfold createStatus
  rw [hpp]

/-- C2 counterexample: `create` on an instance that already holds a live
mapping is not guarded: the call proceeds and returns success, silently
installing a new mapping over the existing state. -/
theorem c2_counterexample_no_double_create_guard :
    c2Mapped.mBasePtr = some 4096 ∧
    FileMap.create env0 4096 c2Mapped (some "new") 3 0 10 true =
      CreateOutcome.ok 4096
        { mFileName := some "new"
          mBasePtr := some 8192
          mBaseLength := 10
          mDataOffset := 0
          mDataPtr := some 8192
          mDataLength := 10 } :=
  ⟨rfl, rfl⟩

/-- C2 amended: `create` contains no double-creation guard.  Its assertions
inspect only `fd`, `offset` and `length`, never the instance fields, and a
successful outcome is entirely independent of the prior state of the
instance, every field being overwritten. -/
theorem c2_create_has_no_prior_state_guard (env : CreateEnv) (p : Int)
    (fm fm2 : FileMap) (name : Option String) (fd offset : Int)
    (length : Nat) (ro : Bool) (q : Int) (st : FileMap)
    (h : FileMap.create env p fm name fd offset length ro =
      CreateOutcome.ok q st) :
    FileMap.create env p fm2 name fd offset length ro =
      CreateOutcome.ok q st := by
  rw [create_ok_iff] at h ⊢
  exact h

/-- Witness for C2: the success obtained on a mapped instance is reproduced
verbatim on a fresh instance. -/
theorem c2_witness :
    FileMap.create env0 4096 (FileMap.mkEmpty 7) (some "new") 3 0 10 true =
      CreateOutcome.ok 4096
        { mFileName := some "new"
          mBasePtr := some 8192
          mBaseLength := 10
          mDataOffset := 0
          mDataPtr := some 8192
          mDataLength := 10 } :=
  c2_create_has_no_prior_state_guard env0 4096 c2Mapped (FileMap.mkEmpty 7)
    (some "new") 3 0 10 true 4096 _ rfl

/-- C3 counterexample: the alignment equality fails on a successful
`create` whose `size_t` sum `length + adjust` wraps: at offset 4100
(adjust 4) and length `2^64 - 2`, `create` succeeds with `mBaseLength = 2`,
which differs from `mDataLength + (offset mod pageSize)`. -/
theorem c3_counterexample_sizet_wrap :
    FileMap.create env0 4096 (FileMap.mkEmpty 0) none 3 4100 (2 ^ 64 - 2)
      true = CreateOutcome.ok 4096 c3WrapState ∧
    c3WrapState.mBaseLength ≠
      c3WrapState.mDataLength + (Int.tmod c3WrapState.mDataOffset 4096).toNat :=
  ⟨rfl, by decide⟩

/-- C3 amended: after every successful `create`, with `q` the page size in
use, `mDataPtr = mBasePtr + (offset mod q)` and a page-aligned offset gives
adjustment 0 with `mBasePtr = mDataPtr`; the length relation
`mBaseLength = mDataLength + (offset mod q)` holds whenever the `size_t`
sum `length + (offset mod q)` does not wrap, i.e. is below `2 ^ 64`
(otherwise `mBaseLength` holds the wrapped sum). -/
theorem c3_create_alignment_no_overflow (env : CreateEnv) (p : Int)
    (fm : FileMap) (name : Option String) (fd offset : Int) (length : Nat)
    (ro : Bool) (q : Int) (st : FileMap)
    (h : FileMap.create env p fm name fd offset length ro =
      CreateOutcome.ok q st) :
    st.mDataOffset = offset ∧
    (length + (Int.tmod offset q).toNat < SIZE_T_MOD →
      st.mBaseLength = st.mDataLength + (Int.tmod offset q).toNat) ∧
    st.mDataPtr =
      Option.map (fun base => base + (Int.tmod offset q).toNat) st.mBasePtr ∧
    (Int.tmod offset q = 0 → st.mBasePtr = st.mDataPtr) := by
  rw [create_ok_iff] at h
  obtain ⟨hq, hname, hoff, hlen, hbase, hptr, hdata⟩ :=
    createStatus_ok env p name fd offset length ro q st h
  refine ⟨hoff, ?_, hdata, ?_⟩
  · intro hnw
    rw [hlen, hbase, Nat.mod_eq_of_lt hnw]
  · intro h0
    rw [hdata, h0]
    cases st.mBasePtr <;> simp

/-- Witness for C3: mapping bytes [4100, 4150) with page size 4096 gives
adjust 4, physical length 54, logical base = physical base + 4. -/
theorem c3_witness :
    FileMap.create env0 (-1) (FileMap.mkEmpty 0) (some "f") 3 4100 50 true =
      CreateOutcome.ok 4096 stC3 ∧
    stC3.mBaseLength = stC3.mDataLength + (Int.tmod stC3.mDataOffset 4096).toNat :=
  ⟨rfl,
   by
    have hal := c3_create_alignment_no_overflow env0 (-1) (FileMap.mkEmpty 0)
      (some "f") 3 4100 50 true 4096 stC3 (by rfl)
    exact hal.2.1 (by decide)⟩

/-- C5: when the shared page-size cache is uninitialized (-1) and the OS
query fails, `create` returns failure with the instance untouched and the
cache still -1; and a later call with the cache still -1 behaves exactly as
one running with a freshly resolved page size, i.e. discovery is retried. -/
theorem c5_pageSize_discovery_failure (env env2 : CreateEnv) (fm : FileMap)
    (name : Option String) (fd offset : Int) (length : Nat) (ro : Bool)
    (hfd : 0 ≤ fd) (hoff : 0 ≤ offset) (hlen : 0 < length)
    (hsys : env.sysconfPageSize = -1) :
    FileMap.create env (-1) fm name fd offset length ro =
      CreateOutcome.fail (-1) fm ∧
    FileMap.create env2 (-1) fm name fd offset length ro =
      FileMap.create env2 env2.sysconfPageSize fm name fd offset length ro := by
  constructor
  · simp [FileMap.create, createStatus, resolvePageSize, hfd, hoff, hlen, hsys]
  · unfold FileMap.create
    rw [createStatus_resolve_congr env2 (-1) env2.sysconfPageSize
      (by simp [resolvePageSize]) name fd offset length ro]

/-- Witness for C5 at a concrete failing environment. -/
theorem c5_witness :
    FileMap.create envNoPage (-1) (FileMap.mkEmpty 0) none 3 0 10 true =
      CreateOutcome.fail (-1) (FileMap.mkEmpty 0) :=
  (c5_pageSize_discovery_failure envNoPage env0 (FileMap.mkEmpty 0) none 3 0
    10 true (by decide) (by decide) (by decide) rfl).1

/-- C6: when the OS mapping call fails, `create` returns failure and the
instance is returned exactly as it was: none of its six fields is modified. -/
theorem c6_mmap_failure_leaves_instance_empty (env : CreateEnv) (p : Int)
    (fm : FileMap) (name : Option String) (fd offset : Int) (length : Nat)
    (ro : Bool) (hfd : 0 ≤ fd) (hoff : 0 ≤ offset) (hlen : 0 < length)
    (hp : resolvePageSize env p ≠ -1)
    (hm : env.mmap = fun _ _ _ _ _ => none) :
    FileMap.create env p fm name fd offset length ro =
      CreateOutcome.fail (resolvePageSize env p) fm := by
  simp [FileMap.create, createStatus, hfd, hoff, hlen, hp, hm]

/-- Witness for C6 at a concrete environment whose `mmap` fails. -/
theorem c6_witness :
    FileMap.create envNoMap 4096 fmSample none 3 0 10 true =
      CreateOutcome.fail 4096 fmSample :=
  c6_mmap_failure_leaves_instance_empty envNoMap 4096 fmSample none 3 0 10
    true (by decide) (by decide) (by decide) (by decide) rfl

/-- C7: every call to `create` with `length = 0` is rejected by a
precondition assertion (whatever the other arguments and the prior state);
no such call returns success. -/
theorem c7_zero_length_rejected (env : CreateEnv) (p : Int) (fm : FileMap)
    (name : Option String) (fd offset : Int) (ro : Bool) :
    FileMap.create env p fm name fd offset 0 ro =
      CreateOutcome.assertFail := by
  unfold FileMap.create createStatus
  by_cases h1 : (0 : Int) ≤ fd <;> by_cases h2 : (0 : Int) ≤ offset <;>
    simp [h1, h2]

end FileMapModel
